import Mathlib

/-!
Shallow embedding of `build.py` from ungoogled-chromium-building-scripts.

The script is command-line glue: each of the five commands (`init`, `sync`,
`prepare`, `build`, `clean`) is a linear sequence of filesystem operations
and blocking subprocess invocations.  We embed each function as a value of a
Writer+Except monad `Step`: it records the list of side effects performed
(the trace) and either returns a value or carries the first uncaught Python
exception.  The outside world (filesystem queries, subprocess exit codes and
stdout, the interactive reply, and the constants and helpers defined in the
repository's `config.py` module, which is not part of the sources here) is
an explicit `World` record of functions, so every definition is executable
on concrete worlds.

Environment-variable plumbing (copying `PATH` and prepending `depot_tools`)
is elided: it alters no control flow and no claim mentions it.
-/

namespace UCBuild

/-- Side effects performed by the script, in the order they happen. -/
inductive Eff where
  /-- subprocess.check_call: run a command, raise on non-zero exit. -/
  | checkCall (cwd : Option String) (cmd : List String)
  /-- subprocess.check_output: run a command capturing stdout, raise on non-zero exit. -/
  | checkOutput (cwd : Option String) (cmd : List String)
  /-- subprocess.run: run a command; the exit status is returned, not checked. -/
  | runCmd (cwd : Option String) (cmd : List String)
  /-- os.remove. -/
  | removeFile (path : String)
  /-- shutil.rmtree. -/
  | rmtree (path : String)
  /-- os.makedirs with exist_ok=True. -/
  | makedirs (path : String)
  /-- open(path, 'w') followed by f.write(content). -/
  | writeFile (path content : String)
  /-- open(path, 'r') followed by f.readlines(). -/
  | readFile (path : String)
  /-- input(message). -/
  | prompt (message : String)
  /-- call into config.git_maybe_checkout (helper living in config.py, not in src/). -/
  | gitMaybeCheckout (url dir : String) (branch : Option String) (reset : Bool)
  deriving DecidableEq

/-- Uncaught Python exceptions the script can raise. -/
inductive PyErr where
  /-- subprocess.CalledProcessError carrying the command and its exit status. -/
  | calledProcess (cmd : List String) (code : Nat)
  /-- RuntimeError(msg). -/
  | runtime (msg : String)
  /-- FileNotFoundError(msg). -/
  | fileNotFound (msg : String)
  /-- AttributeError(msg). -/
  | attributeError (msg : String)
  deriving DecidableEq

/-- view of an exception-or-value outcome as a sum, for deciding equality. -/
def exceptToSum {ε α : Type} : Except ε α → ε ⊕ α
  | .error e => .inl e
  | .ok a => .inr a

instance {ε α : Type} [DecidableEq ε] [DecidableEq α] : DecidableEq (Except ε α) :=
  fun x y =>
    decidable_of_iff (exceptToSum x = exceptToSum y)
      (by cases x <;> cases y <;> simp [exceptToSum])

/-- A computation of the script: the effect trace it performs and its outcome. -/
structure Step (α : Type) where
  trace : List Eff
  result : Except PyErr α
  deriving DecidableEq

/-- Sequential composition: on success the traces concatenate, on failure the
computation stops at the failing effect (Python exception propagation). -/
def Step.bind {α β : Type} (p : Step α) (f : α → Step β) : Step β :=
  match p.result with
  | .ok a => ⟨p.trace ++ (f a).trace, (f a).result⟩
  | .error e => ⟨p.trace, .error e⟩

/-- A computation that performs nothing and returns a. -/
def Step.pure {α : Type} (a : α) : Step α := ⟨[], .ok a⟩

instance : Monad Step where
  pure := Step.pure
  bind := Step.bind

/-- True when the computation finished without an uncaught exception. -/
def Step.ok {α : Type} (p : Step α) : Bool :=
  match p.result with
  | .ok _ => true
  | .error _ => false

/-- Stdout and exit status of a subprocess.run invocation. -/
structure Completed where
  returncode : Nat
  stdout : String
  deriving DecidableEq

/-- The environment the script runs against.  Filesystem queries, subprocess
behavior and the interactive reply are oracle functions; the trailing fields
are the constants and pure helpers imported from the repository's `config.py`
module, which is not among the sources, so their values are parameters. -/
structure World where
  /-- os.path.exists. -/
  pathExists : String → Bool
  /-- os.path.isdir. -/
  isDir : String → Bool
  /-- exit status each command would return. -/
  exitCode : List String → Nat
  /-- stdout each command would produce. -/
  output : List String → String
  /-- contents of each readable file. -/
  fileContents : String → String
  /-- the reply input() would read. -/
  reply : String
  /-- os.getcwd(). -/
  cwd : String
  /-- distro.linux_distribution()[0].lower(). -/
  distroName : String
  /-- config.shell_expand_abs_path (pure path normalisation from config.py). -/
  expand : String → String
  /-- os.path.abspath. -/
  abspath : String → String
  /-- config.GCLIENT_CONFIG, the .gclient template containing the
  @@TARGET_OS@@ placeholder (constant from config.py). -/
  gclientTemplate : String
  /-- config.chromium_version (constant from config.py). -/
  chromiumVersion : String
  /-- config.ungoogled_chromium_version (constant from config.py). -/
  ucVersion : String
  /-- config.ungoogled_chromium_android_version (constant from config.py). -/
  ucaVersion : String
  /-- config.OUTPUT_BASE_DIR, the default output location (constant from config.py). -/
  defaultOutputBaseDir : String
  /-- config.filter_list_file dir file excludes: path of the filtered list
  file (helper from config.py, treated as a function of its arguments). -/
  filterListFile : String → String → List String → String
  /-- config.parse_gn_flags: parses the lines of flags.gn into an
  insertion-ordered key/value mapping (helper from config.py). -/
  parseGnFlags : String → List (String × String)

/-- Python str.strip(): drop whitespace from both ends (structurally
recursive so that concrete runs evaluate). -/
def pyStrip (s : String) : String :=
  ⟨((s.data.dropWhile Char.isWhitespace).reverse.dropWhile Char.isWhitespace).reverse⟩

/-- config.SRC_DIR.  Defined in config.py (not among the sources); `build.py`
uses the literal "src" interchangeably with SRC_DIR (prepare passes SRC_DIR
and 'src' to the same scripts for the same tree), fixing its value. -/
def SRC_DIR : String := "src"

/-- The immutable configuration record built from the CLI arguments. -/
structure Config where
  target_os : String
  target_cpu : String
  debug : Bool
  output_base_dir : String
  cc_wrapper : Option String
  gn_args : List (String × String)
  direct_download : Bool
  shallow : Bool
  reset : Bool
  install_build_deps : Bool
  num_jobs : Nat
  deriving DecidableEq

/-- subprocess.check_call under world w. -/
def checkCall (w : World) (cwd : Option String) (cmd : List String) : Step Unit :=
  ⟨[.checkCall cwd cmd],
    if w.exitCode cmd = 0 then .ok () else .error (.calledProcess cmd (w.exitCode cmd))⟩

/-- subprocess.check_output under world w. -/
def checkOutput (w : World) (cwd : Option String) (cmd : List String) : Step String :=
  ⟨[.checkOutput cwd cmd],
    if w.exitCode cmd = 0 then .ok (w.output cmd) else .error (.calledProcess cmd (w.exitCode cmd))⟩

/-- subprocess.run with capture_output: never raises on non-zero exit. -/
def runCmd (w : World) (cwd : Option String) (cmd : List String) : Step Completed :=
  ⟨[.runCmd cwd cmd], .ok ⟨w.exitCode cmd, w.output cmd⟩⟩

/-- os.remove. -/
def removeFile (path : String) : Step Unit := ⟨[.removeFile path], .ok ()⟩

/-- shutil.rmtree. -/
def rmtree (path : String) : Step Unit := ⟨[.rmtree path], .ok ()⟩

/-- os.makedirs with exist_ok=True. -/
def makedirs (path : String) : Step Unit := ⟨[.makedirs path], .ok ()⟩

/-- open for writing followed by write. -/
def writeFile (path content : String) : Step Unit := ⟨[.writeFile path content], .ok ()⟩

/-- open for reading followed by readlines, modelled as the raw contents. -/
def readFile (w : World) (path : String) : Step String :=
  ⟨[.readFile path], .ok (w.fileContents path)⟩

/-- input(message). -/
def promptUser (w : World) (message : String) : Step String :=
  ⟨[.prompt message], .ok w.reply⟩

/-- config.git_maybe_checkout: clone-or-update helper defined in config.py
(not among the sources); recorded as one opaque effect. -/
def gitMaybeCheckout (url dir : String) (branch : Option String) (reset : Bool) : Step Unit :=
  ⟨[.gitMaybeCheckout url dir branch reset], .ok ()⟩

/-- raise an exception. -/
def throwErr {α : Type} (e : PyErr) : Step α := ⟨[], .error e⟩

/-- confirmation prompt shown by clean for a non-default output directory
(build.py lines 29-32, typo included). -/
def cleanPromptMsg (w : World) (cfg : Config) : String :=
  "WARNING: you are about to remove an output directory which is different from the default location. Are you sure you want ot remove "
    ++ w.abspath cfg.output_base_dir ++ "? [y/n]: "

/-- clean: remove the output directory, prompting first when it differs from
the default location (build.py lines 22-36). -/
def clean (w : World) (cfg : Config) : Step Unit :=
  if w.pathExists cfg.output_base_dir = true then
    if w.expand cfg.output_base_dir ≠ w.expand w.defaultOutputBaseDir then
      Step.bind (promptUser w (cleanPromptMsg w cfg)) fun reply =>
      if reply ≠ "y" then
        Step.pure ()
      else
        checkCall w none ["rm", "-rf", cfg.output_base_dir]
    else
      checkCall w none ["rm", "-rf", cfg.output_base_dir]
  else
    Step.pure ()

/-- init: fresh clones of depot_tools and the chromium tree (build.py lines 39-59). -/
def init (w : World) (cfg : Config) : Step Unit :=
  Step.bind (if w.pathExists "depot_tools" = true then rmtree "depot_tools" else Step.pure ())
    fun _ =>
  Step.bind (gitMaybeCheckout "https://chromium.googlesource.com/chromium/tools/depot_tools.git"
    "depot_tools" none false) fun _ =>
  let clone_cmd := ["git", "clone"]
    ++ (if cfg.shallow = true then ["--depth", "1", "--no-tags"] else [])
  Step.bind (if w.pathExists SRC_DIR = true then rmtree SRC_DIR else Step.pure ()) fun _ =>
  checkCall w none (clone_cmd
    ++ ["https://chromium.googlesource.com/chromium/src.git", "-b", w.chromiumVersion])

/-- set_revision: pin the chromium checkout to the configured tag, refusing
to do so on a shallow repository (build.py lines 62-97). -/
def set_revision (w : World) (cfg : Config) : Step String :=
  Step.bind (checkOutput w (some SRC_DIR) ["git", "rev-parse", "HEAD"]) fun rev0 =>
  let rev := pyStrip rev0
  if cfg.shallow = true then
    Step.pure rev
  else
    Step.bind (checkOutput w (some SRC_DIR) ["git", "rev-parse", "--is-shallow-repository"])
      fun shallow =>
    if pyStrip shallow = "true" then
      throwErr (.runtime "Cannot set revision on a shallow repository!")
    else
      Step.bind (runCmd w (some SRC_DIR) ["git", "describe", "--tags", "--exact-match", rev])
        fun tag =>
      Step.bind
        (if tag.returncode ≠ 0 ∨ pyStrip tag.stdout ≠ w.chromiumVersion then
          Step.bind
            (if cfg.reset = true then
              Step.bind (checkCall w (some SRC_DIR) ["git", "clean", "-fxd"]) fun _ =>
              checkCall w (some SRC_DIR) ["git", "reset", "--hard"]
            else
              Step.pure ()) fun _ =>
          Step.bind (checkCall w (some SRC_DIR) ["git", "pull"]) fun _ =>
          checkCall w (some SRC_DIR) ["git", "checkout", w.chromiumVersion]
        else
          Step.pure ()) fun _ =>
      Step.bind (checkOutput w (some SRC_DIR) ["git", "rev-parse", "HEAD"]) fun new_rev =>
      Step.pure (pyStrip new_rev)

/-- gclient extra arguments computed by sync from the configuration and the
pinned revision (build.py lines 159-167). -/
def syncExtraArgs (cfg : Config) (chromium_ref : String) : List String :=
  (if cfg.reset = true then
      ["--revision", "src@" ++ chromium_ref, "--force", "--upstream", "--reset"]
    else [])
  ++ (if cfg.shallow = true then ["--shallow"] else ["--with_tags", "--with_branch_heads"])

/-- sync: write .gclient, run gclient sync and runhooks, optionally install
build dependencies (build.py lines 138-188). -/
def sync (w : World) (cfg : Config) : Step Unit :=
  let depot_tools_path := w.cwd ++ "/depot_tools"
  if w.pathExists depot_tools_path = false ∨ w.isDir depot_tools_path = false then
    throwErr (.fileNotFound "Cannot find depot_tools!")
  else
    Step.bind (set_revision w cfg) fun chromium_ref =>
    Step.bind (writeFile ".gclient"
      (w.gclientTemplate.replace "@@TARGET_OS@@" ("'" ++ cfg.target_os ++ "'"))) fun _ =>
    Step.bind (checkCall w none
      (["gclient", "sync", "--nohooks"] ++ syncExtraArgs cfg chromium_ref)) fun _ =>
    Step.bind (checkCall w none ["gclient", "runhooks"]) fun _ =>
    if cfg.install_build_deps = true then
      let script := if cfg.target_os = "android" then "install-build-deps-android.sh"
        else "install-build-deps.sh"
      if w.distroName = "debian" ∨ w.distroName = "ubuntu" then
        checkCall w none ["sudo", SRC_DIR ++ "/build/" ++ script]
      else
        Step.pure ()
    else
      Step.pure ()

/-- the binary-pruning invocation of prepare's main pass (build.py lines 220-223);
run without exit-status checking because the prune script returns non-zero for
non-existing files. -/
def pruneCmd (w : World) : List String :=
  ["ungoogled-chromium/utils/prune_binaries.py", SRC_DIR,
    w.filterListFile "ungoogled-chromium" "pruning.list" ["buildtools/linux64/gn"]]

/-- the patch-application invocation of prepare's main pass (build.py lines 224-225). -/
def patchesCmd : List String :=
  ["ungoogled-chromium/utils/patches.py", "apply", "src", "ungoogled-chromium/patches"]

/-- the domain-substitution invocation of prepare's main pass (build.py lines 226-229). -/
def domsubCmd (w : World) : List String :=
  ["ungoogled-chromium/utils/domain_substitution.py", "apply",
    "-r", "ungoogled-chromium/domain_regex.list",
    "-f", w.filterListFile "ungoogled-chromium" "domain_substitution.list" [],
    "-c", "domsubcache.tar.gz", "src"]

/-- the android-fix patch invocation of prepare (build.py lines 207-209). -/
def androidPatchCmd : List String :=
  ["patch", "-p1", "--ignore-whitespace", "-i",
    "ungoogled-chromium-android/patches/Other/ungoogled-main-repo-fix.patch",
    "--no-backup-if-mismatch"]

/-- the binary-pruning invocation of prepare's android pass (build.py lines 237-238). -/
def pruneCmd2 (w : World) : List String :=
  ["ungoogled-chromium/utils/prune_binaries.py", "src",
    w.filterListFile "ungoogled-chromium-android" "pruning_2.list" []]

/-- the patch-application invocation of prepare's android pass (build.py lines 239-240). -/
def patchesCmd2 : List String :=
  ["ungoogled-chromium/utils/patches.py", "apply", "src", "ungoogled-chromium-android/patches"]

/-- the domain-substitution invocation of prepare's android pass (build.py lines 241-244). -/
def domsubCmd2 (w : World) : List String :=
  ["ungoogled-chromium/utils/domain_substitution.py", "apply",
    "-r", "ungoogled-chromium/domain_regex.list",
    "-f", w.filterListFile "ungoogled-chromium-android" "domain_sub_2.list" [],
    "-c", "domsubcache.tar.gz", "src"]

/-- prepare: check out the ungoogled-chromium repositories, drop the stale
domain-substitution cache and run the pruning, patching and
domain-substitution scripts (build.py lines 191-244). -/
def prepare (w : World) (cfg : Config) : Step Unit :=
  Step.bind (gitMaybeCheckout "https://github.com/Eloston/ungoogled-chromium.git"
    "ungoogled-chromium" (some w.ucVersion) true) fun _ =>
  Step.bind
    (if cfg.target_os = "android" then
      Step.bind (gitMaybeCheckout
        "https://github.com/ungoogled-software/ungoogled-chromium-android.git"
        "ungoogled-chromium-android" (some w.ucaVersion) true) fun _ =>
      checkCall w none androidPatchCmd
    else
      Step.pure ()) fun _ =>
  Step.bind
    (if w.pathExists "domsubcache.tar.gz" = true then
      removeFile "domsubcache.tar.gz"
    else
      Step.pure ()) fun _ =>
  Step.bind (runCmd w none (pruneCmd w)) fun _ =>
  Step.bind (checkCall w none patchesCmd) fun _ =>
  Step.bind (checkCall w none (domsubCmd w)) fun _ =>
  if cfg.target_os = "android" then
    Step.bind
      (if w.pathExists "domsubcache.tar.gz" = true then
        removeFile "domsubcache.tar.gz"
      else
        Step.pure ()) fun _ =>
    Step.bind (runCmd w none (pruneCmd2 w)) fun _ =>
    Step.bind (checkCall w none patchesCmd2) fun _ =>
    checkCall w none (domsubCmd2 w)
  else
    Step.pure ()

/-- Python dict assignment d[k] = v on an insertion-ordered association list
(dicts never hold duplicate keys): an existing key keeps its position and
gets the new value, a new key is appended at the end. -/
def dictInsert : List (String × String) → String → String → List (String × String)
  | [], k, v => [(k, v)]
  | kv :: rest, k, v =>
    if kv.1 = k then (k, v) :: rest else kv :: dictInsert rest k v

/-- Python dict.update(xs) applied to an insertion-ordered association list. -/
def dictUpdate (m : List (String × String)) (xs : List (String × String)) :
    List (String × String) :=
  xs.foldl (fun acc kv => dictInsert acc kv.1 kv.2) m

/-- Python dict lookup d[k] (first binding of k; dicts never hold duplicates). -/
def dictGet : List (String × String) → String → Option String
  | [], _ => none
  | kv :: rest, k => if kv.1 = k then some kv.2 else dictGet rest k

/-- value of the last binding of k in a list of key/value layers; this is
the value that survives when the layers are applied left to right by
dict.update. -/
def lookupLast : List (String × String) → String → Option String
  | [], _ => none
  | kv :: xs, k =>
    match lookupLast xs k with
    | some v => some v
    | none => if kv.1 = k then some kv.2 else none

/-- hard-coded common GN flags of build (build.py lines 270-279). -/
def commonFlags (cfg : Config) : List (String × String) :=
  [("is_component_build", "false"),
   ("is_unsafe_developer_build", "false"),
   ("proprietary_codecs", "true"),
   ("ffmpeg_branding", "\"Chrome\""),
   ("use_gnome_keyring", "false"),
   ("exclude_unwind_tables", "false"),
   ("target_os", "\"" ++ cfg.target_os ++ "\""),
   ("target_cpu", "\"" ++ cfg.target_cpu ++ "\"")]

/-- debug-mode GN flags (build.py lines 283-289). -/
def debugFlags : List (String × String) :=
  [("is_debug", "true"),
   ("is_unsafe_developer_build", "true"),
   ("is_official_build", "false"),
   ("symbol_level", "1"),
   ("blink_symbol_level", "1")]

/-- release-mode GN flags (build.py lines 291-297). -/
def releaseFlags : List (String × String) :=
  [("is_debug", "false"),
   ("is_unsafe_developer_build", "false"),
   ("is_official_build", "true"),
   ("symbol_level", "0"),
   ("blink_symbol_level", "0")]

/-- cc_wrapper layer: one entry when a wrapper is configured, empty otherwise
(build.py lines 300-303). -/
def ccWrapperFlags (cfg : Config) : List (String × String) :=
  match cfg.cc_wrapper with
  | some ccw => [("cc_wrapper", "\"" ++ ccw ++ "\"")]
  | none => []

/-- the GN argument map assembled by build: file-provided flags updated in
turn with the common, debug/release, cc_wrapper and user-override layers
(build.py lines 266-306). -/
def buildGnArgs (fileFlags : List (String × String)) (cfg : Config) :
    List (String × String) :=
  let gn_args := fileFlags
  let gn_args := dictUpdate gn_args (commonFlags cfg)
  let gn_args := dictUpdate gn_args (if cfg.debug = true then debugFlags else releaseFlags)
  let gn_args := dictUpdate gn_args (ccWrapperFlags cfg)
  dictUpdate gn_args cfg.gn_args

/-- the four override layers build applies on top of the file-provided
flags, concatenated in application order. -/
def overrideLayers (cfg : Config) : List (String × String) :=
  commonFlags cfg ++ (if cfg.debug = true then debugFlags else releaseFlags)
    ++ ccWrapperFlags cfg ++ cfg.gn_args

/-- serialisation of the GN argument map: key=value pairs each followed by
the delimiter (build.py lines 309-312). -/
def gnArgsStr (m : List (String × String)) (delimiter : String) : String :=
  m.foldl (fun acc kv => acc ++ kv.1 ++ "=" ++ kv.2 ++ delimiter) ""

/-- output subfolder name computed by build (build.py lines 252-253). -/
def outputSubfolder (cfg : Config) : String :=
  (if cfg.debug = true then "Debug" else "Release") ++ "_" ++ cfg.target_os ++ "_" ++ cfg.target_cpu

/-- output path relative to the source tree (build.py line 254). -/
def outputPath (cfg : Config) : String :=
  cfg.output_base_dir ++ "/" ++ outputSubfolder cfg

/-- output path as seen from the script's working directory (build.py line 255). -/
def outputSrcPath (cfg : Config) : String :=
  SRC_DIR ++ "/" ++ cfg.output_base_dir ++ "/" ++ outputSubfolder cfg

/-- build: assemble GN arguments, run the project generator and the build
driver (build.py lines 247-340). -/
def build (w : World) (cfg : Config) : Step Unit :=
  Step.bind
    (if w.pathExists (outputSrcPath cfg) = true ∧ w.isDir (outputSrcPath cfg) = false then
      removeFile (outputSrcPath cfg)
    else
      Step.pure ()) fun _ =>
  Step.bind (makedirs (outputSrcPath cfg)) fun _ =>
  Step.bind (readFile w "ungoogled-chromium/flags.gn") fun flags =>
  let gn_args := buildGnArgs (w.parseGnFlags flags) cfg
  let delimiter := if cfg.direct_download = true then " " else "\n"
  let gn_args_str := gnArgsStr gn_args delimiter
  let depot_tools_path := w.cwd ++ "/depot_tools"
  if w.pathExists depot_tools_path = false ∨ w.isDir depot_tools_path = false then
    throwErr (.fileNotFound "Cannot find depot_tools!")
  else
    Step.bind
      (if cfg.direct_download = true then
        checkCall w none [SRC_DIR ++ "/tools/gn/bootstrap/bootstrap.py",
          "--gn-gen-args='" ++ gn_args_str ++ "'"]
      else
        Step.bind (writeFile (outputSrcPath cfg ++ "/args.gn") gn_args_str) fun _ =>
        checkCall w (some SRC_DIR) ["gn", "gen", outputPath cfg, "--fail-on-unused-args"])
      fun _ =>
    Step.bind
      (if cfg.target_os = "linux" then
        Step.pure ["chrome", "chrome_sandbox", "chromedriver"]
      else if cfg.target_os = "android" then
        Step.pure ["chrome_modern_public_bundle"]
      else
        throwErr (.attributeError "Target OS not supported")) fun targets =>
    checkCall w (some SRC_DIR)
      (["autoninja", "-j", toString cfg.num_jobs, "-C", outputPath cfg] ++ targets)

/-- the command dispatch of the script's main block (build.py lines 384-393). -/
def runCommand (w : World) (cfg : Config) : String → Step Unit
  | "init" => init w cfg
  | "sync" => sync w cfg
  | "prepare" => prepare w cfg
  | "build" => build w cfg
  | "clean" => clean w cfg
  | _ => pure ()

/-- exit status of the whole script.  Models CPython's documented process
behavior: a run without an uncaught exception exits 0, and an uncaught
exception (build.py installs no handler) terminates the interpreter with
exit status 1, whatever the exception carries. -/
def scriptExitCode (w : World) (cfg : Config) (command : String) : Nat :=
  match (runCommand w cfg command).result with
  | .ok _ => 0
  | .error _ => 1

/-- an effect is checked-ok when it is not a checked subprocess invocation,
or it is one and the command exited 0. -/
def checkedOk (w : World) : Eff → Bool
  | .checkCall _ cmd => w.exitCode cmd == 0
  | .checkOutput _ cmd => w.exitCode cmd == 0
  | _ => true

/-- an effect with the command's exit status constrained for every subprocess
invocation, whether its status is checked (check_call, check_output) or not
(subprocess.run). -/
def subprocOk (w : World) : Eff → Bool
  | .checkCall _ cmd => w.exitCode cmd == 0
  | .checkOutput _ cmd => w.exitCode cmd == 0
  | .runCmd _ cmd => w.exitCode cmd == 0
  | _ => true

/-- fail-fast discipline: every effect except possibly the last one is a
checked-ok effect (so a failing checked call is immediately the end of the
trace), and a successful run contains only checked-ok effects (so a failing
checked call forces an uncaught exception). -/
def FailsFast (w : World) {α : Type} (p : Step α) : Prop :=
  (∀ e ∈ p.trace.dropLast, checkedOk w e = true) ∧
  (p.ok = true → ∀ e ∈ p.trace, checkedOk w e = true)

/-- the serialised GN argument string build passes to the project generator
or writes to args.gn, as a function of the environment and configuration. -/
def buildGnArgsStr (w : World) (cfg : Config) : String :=
  gnArgsStr (buildGnArgs (w.parseGnFlags (w.fileContents "ungoogled-chromium/flags.gn")) cfg)
    (if cfg.direct_download = true then " " else "\n")

/-- effects that reach outside the process: subprocess invocations of any
kind, including the clone-or-update helper. -/
def isExternal : Eff → Bool
  | .checkCall _ _ => true
  | .checkOutput _ _ => true
  | .runCmd _ _ => true
  | .gitMaybeCheckout _ _ _ _ => true
  | _ => false

/-- true when no effect of the trace is an external command. -/
def noExternal (t : List Eff) : Bool := t.all (fun e => !isExternal e)

/-- recognises the build-driver invocation (autoninja). -/
def isAutoninjaCall : Eff → Bool
  | .checkCall _ cmd => cmd.head? == some "autoninja"
  | _ => false

/-- true when some effect of the trace invokes the build driver. -/
def hasAutoninja (t : List Eff) : Bool := t.any isAutoninjaCall

/-- true when every subprocess invocation of the trace (checked or not)
exited with status 0 under w. -/
def allSubprocOk (w : World) (t : List Eff) : Bool := t.all (subprocOk w)

/-- a concrete environment for evaluating the model: every path is absent,
every directory query succeeds, every command exits 0. -/
def wBase : World where
  pathExists := fun _ => false
  isDir := fun _ => true
  exitCode := fun _ => 0
  output := fun _ => "deadbeef"
  fileContents := fun _ => "a=b\n"
  reply := "y"
  cwd := "/work"
  distroName := "debian"
  expand := fun s => s
  abspath := fun s => "/work/" ++ s
  gclientTemplate := "solutions = []\ntarget_os = [@@TARGET_OS@@]\n"
  chromiumVersion := "100.0.4896.60"
  ucVersion := "100.0.4896.60-1"
  ucaVersion := "100.0.4896.60-1.1"
  defaultOutputBaseDir := "out"
  filterListFile := fun d f _ => d ++ "/" ++ f ++ ".filtered"
  parseGnFlags := fun _ => [("a", "b")]

/-- a concrete configuration for evaluating the model. -/
def cfgBase : Config where
  target_os := "linux"
  target_cpu := "x64"
  debug := false
  output_base_dir := "out"
  cc_wrapper := none
  gn_args := [("custom", "1")]
  direct_download := false
  shallow := false
  reset := false
  install_build_deps := false
  num_jobs := 8

/-- environment in which the binary-pruning script fails with exit status 5
and every other command succeeds. -/
def wPruneFails : World :=
  { wBase with
    exitCode := fun cmd =>
      if cmd.head? = some "ungoogled-chromium/utils/prune_binaries.py" then 5 else 0 }

/-- environment in which every git command fails with exit status 7. -/
def wGitFails : World :=
  { wBase with exitCode := fun cmd => if cmd.head? = some "git" then 7 else 0 }

/-- environment in which the chromium checkout reports being shallow. -/
def wShallowRepo : World :=
  { wBase with
    output := fun cmd =>
      if cmd = ["git", "rev-parse", "--is-shallow-repository"] then "true\n" else "deadbeef" }

/-- environment in which the depot_tools directory exists. -/
def wDepot : World :=
  { wBase with
    pathExists := fun p => p == "/work/depot_tools",
    isDir := fun p => p == "/work/depot_tools" }

/-- environment in which depot_tools and the domain-substitution cache file
exist. -/
def wDepotCache : World :=
  { wBase with
    pathExists := fun p => p == "/work/depot_tools" || p == "domsubcache.tar.gz",
    isDir := fun p => p == "/work/depot_tools" }

/-- environment for exercising clean: the output directory exists, path
expansion is the identity, and the interactive reply is not 'y'. -/
def wCleanNo : World :=
  { wBase with pathExists := fun _ => true, reply := "no" }

/-- the base configuration with the shallow flag enabled. -/
def cfgShallow : Config := { cfgBase with shallow := true }

theorem dropLast_append_ne_nil {α : Type} (xs : List α) {ys : List α} (h : ys ≠ []) :
    (xs ++ ys).dropLast = xs ++ ys.dropLast := by
  induction xs with
  | nil => simp
  | cons a xs ih =>
    have hne : xs ++ ys ≠ [] := by
      intro hc
      exact h (List.append_eq_nil.mp hc).2
    rw [List.cons_append, List.dropLast_cons_of_ne_nil hne, ih, List.cons_append]

theorem mem_of_mem_dropLast {α : Type} {e : α} {l : List α} (h : e ∈ l.dropLast) : e ∈ l := by
  induction l with
  | nil => simp at h
  | cons a l ih =>
    cases l with
    | nil => simp at h
    | cons b l =>
      rw [List.dropLast_cons₂] at h
      rcases List.mem_cons.mp h with h1 | h2
      · exact h1 ▸ List.mem_cons_self a _
      · exact List.mem_cons_of_mem a (ih h2)

theorem trace_bind {α β : Type} (p : Step α) (f : α → Step β) :
    (Step.bind p f).trace =
      p.trace ++ (match p.result with | .ok a => (f a).trace | .error _ => []) := by
  unfold Step.bind
  cases p.result <;> simp

theorem result_bind {α β : Type} (p : Step α) (f : α → Step β) :
    (Step.bind p f).result =
      match p.result with | .ok a => (f a).result | .error e => .error e := by
  unfold Step.bind
  cases p.result <;> simp

theorem take_append_len {α : Type} (l₁ l₂ : List α) (n : Nat) :
    (l₁ ++ l₂).take (l₁.length + n) = l₁ ++ l₂.take n := by
  induction l₁ with
  | nil => simp
  | cons a l₁ ih => simp [List.take, Nat.succ_add, ih]

theorem failsFast_pure (w : World) {α : Type} (a : α) : FailsFast w (Step.pure a) := by
  constructor
  · intro e he; simp [Step.pure, Step.trace] at he
  · intro _ e he; simp [Step.pure, Step.trace] at he

theorem failsFast_throwErr (w : World) {α : Type} (err : PyErr) :
    FailsFast w (throwErr err : Step α) := by
  constructor
  · intro e he; simp [throwErr, Step.trace] at he
  · intro _ e he; simp [throwErr, Step.trace] at he

theorem failsFast_bind {w : World} {α β : Type} {p : Step α} {f : α → Step β}
    (hp : FailsFast w p) (hf : ∀ a, FailsFast w (f a)) :
    FailsFast w (Step.bind p f) := by
  rcases hp with ⟨hp1, hp2⟩
  unfold Step.bind
  cases hres : p.result with
  | error err =>
    refine ⟨fun e he => hp1 e he, fun hok => ?_⟩
    simp [Step.ok] at hok
  | ok a =>
    have hpok : p.ok = true := by simp [Step.ok, hres]
    have hptr : ∀ e ∈ p.trace, checkedOk w e = true := hp2 hpok
    rcases hf a with ⟨hq1, hq2⟩
    show FailsFast w ⟨p.trace ++ (f a).trace, (f a).result⟩
    constructor
    · intro e he
      by_cases hq : (f a).trace = []
      · rw [hq, List.append_nil] at he
        exact hptr e (mem_of_mem_dropLast he)
      · rw [dropLast_append_ne_nil _ hq] at he
        rcases List.mem_append.mp he with h1 | h2
        · exact hptr e h1
        · exact hq1 e h2
    · intro hok e he
      have hqok : (f a).ok = true := by
        simp only [Step.ok] at hok ⊢
        exact hok
      rcases List.mem_append.mp he with h1 | h2
      · exact hptr e h1
      · exact hq2 hqok e h2

theorem failsFast_ite {w : World} {α : Type} {c : Prop} [Decidable c] {p q : Step α}
    (hp : FailsFast w p) (hq : FailsFast w q) : FailsFast w (if c then p else q) := by
  split
  · exact hp
  · exact hq

theorem failsFast_single_ok {w : World} {α : Type} {t : Eff} {r : Except PyErr α}
    (h : checkedOk w t = true) : FailsFast w ⟨[t], r⟩ := by
  constructor
  · intro e he; simp [Step.trace] at he
  · intro _ e he
    simp only [Step.trace, List.mem_singleton] at he
    rw [he]; exact h

theorem failsFast_checkCall (w : World) (cwd : Option String) (cmd : List String) :
    FailsFast w (checkCall w cwd cmd) := by
  unfold checkCall
  by_cases hz : w.exitCode cmd = 0
  · exact failsFast_single_ok (by simp [checkedOk, hz])
  · constructor
    · intro e he; simp [Step.trace] at he
    · intro hok
      exfalso
      simp [Step.ok, Step.result, hz] at hok

theorem failsFast_checkOutput (w : World) (cwd : Option String) (cmd : List String) :
    FailsFast w (checkOutput w cwd cmd) := by
  unfold checkOutput
  by_cases hz : w.exitCode cmd = 0
  · exact failsFast_single_ok (by simp [checkedOk, hz])
  · constructor
    · intro e he; simp [Step.trace] at he
    · intro hok
      exfalso
      simp [Step.ok, Step.result, hz] at hok

theorem failsFast_runCmd (w : World) (cwd : Option String) (cmd : List String) :
    FailsFast w (runCmd w cwd cmd) :=
  failsFast_single_ok (by simp [checkedOk])

theorem failsFast_removeFile (w : World) (path : String) : FailsFast w (removeFile path) :=
  failsFast_single_ok (by simp [checkedOk])

theorem failsFast_rmtree (w : World) (path : String) : FailsFast w (rmtree path) :=
  failsFast_single_ok (by simp [checkedOk])

theorem failsFast_makedirs (w : World) (path : String) : FailsFast w (makedirs path) :=
  failsFast_single_ok (by simp [checkedOk])

theorem failsFast_writeFile (w : World) (path content : String) :
    FailsFast w (writeFile path content) :=
  failsFast_single_ok (by simp [checkedOk])

theorem failsFast_readFile (w : World) (path : String) : FailsFast w (readFile w path) :=
  failsFast_single_ok (by simp [checkedOk])

theorem failsFast_promptUser (w : World) (msg : String) : FailsFast w (promptUser w msg) :=
  failsFast_single_ok (by simp [checkedOk])

theorem failsFast_gitMaybeCheckout (w : World) (url dir : String) (branch : Option String)
    (reset : Bool) : FailsFast w (gitMaybeCheckout url dir branch reset) :=
  failsFast_single_ok (by simp [checkedOk])

theorem failsFast_clean (w : World) (cfg : Config) : FailsFast w (clean w cfg) := by
  unfold clean
  apply failsFast_ite
  · apply failsFast_ite
    · apply failsFast_bind (failsFast_promptUser w _)
      intro reply
      exact failsFast_ite (failsFast_pure w ()) (failsFast_checkCall w none _)
    · exact failsFast_checkCall w none _
  · exact failsFast_pure w ()

theorem failsFast_init (w : World) (cfg : Config) : FailsFast w (init w cfg) := by
  unfold init
  apply failsFast_bind (failsFast_ite (failsFast_rmtree w _) (failsFast_pure w ()))
  intro _
  apply failsFast_bind (failsFast_gitMaybeCheckout w _ _ _ _)
  intro _
  apply failsFast_bind (failsFast_ite (failsFast_rmtree w _) (failsFast_pure w ()))
  intro _
  exact failsFast_checkCall w none _

theorem failsFast_set_revision (w : World) (cfg : Config) : FailsFast w (set_revision w cfg) := by
  unfold set_revision
  apply failsFast_bind (failsFast_checkOutput w _ _)
  intro rev
  apply failsFast_ite (failsFast_pure w _)
  apply failsFast_bind (failsFast_checkOutput w _ _)
  intro shallow
  apply failsFast_ite (failsFast_throwErr w _)
  apply failsFast_bind (failsFast_runCmd w _ _)
  intro tag
  apply failsFast_bind
  · apply failsFast_ite
    · apply failsFast_bind (failsFast_ite ?_ (failsFast_pure w ()))
      · intro _
        apply failsFast_bind (failsFast_checkCall w _ _)
        intro _
        exact failsFast_checkCall w _ _
      · apply failsFast_bind (failsFast_checkCall w _ _)
        intro _
        exact failsFast_checkCall w _ _
    · exact failsFast_pure w ()
  intro _
  apply failsFast_bind (failsFast_checkOutput w _ _)
  intro new_rev
  exact failsFast_pure w _

theorem failsFast_sync (w : World) (cfg : Config) : FailsFast w (sync w cfg) := by
  unfold sync
  apply failsFast_ite (failsFast_throwErr w _)
  apply failsFast_bind (failsFast_set_revision w cfg)
  intro chromium_ref
  apply failsFast_bind (failsFast_writeFile w _ _)
  intro _
  apply failsFast_bind (failsFast_checkCall w _ _)
  intro _
  apply failsFast_bind (failsFast_checkCall w _ _)
  intro _
  apply failsFast_ite
  · exact failsFast_ite (failsFast_checkCall w _ _) (failsFast_pure w ())
  · exact failsFast_pure w ()

theorem failsFast_prepare (w : World) (cfg : Config) : FailsFast w (prepare w cfg) := by
  unfold prepare
  apply failsFast_bind (failsFast_gitMaybeCheckout w _ _ _ _)
  intro _
  apply failsFast_bind
  · apply failsFast_ite ?_ (failsFast_pure w ())
    apply failsFast_bind (failsFast_gitMaybeCheckout w _ _ _ _)
    intro _
    exact failsFast_checkCall w _ _
  intro _
  apply failsFast_bind (failsFast_ite (failsFast_removeFile w _) (failsFast_pure w ()))
  intro _
  apply failsFast_bind (failsFast_runCmd w _ _)
  intro _
  apply failsFast_bind (failsFast_checkCall w _ _)
  intro _
  apply failsFast_bind (failsFast_checkCall w _ _)
  intro _
  apply failsFast_ite ?_ (failsFast_pure w ())
  apply failsFast_bind (failsFast_ite (failsFast_removeFile w _) (failsFast_pure w ()))
  intro _
  apply failsFast_bind (failsFast_runCmd w _ _)
  intro _
  apply failsFast_bind (failsFast_checkCall w _ _)
  intro _
  exact failsFast_checkCall w _ _

theorem failsFast_build (w : World) (cfg : Config) : FailsFast w (build w cfg) := by
  unfold build
  apply failsFast_bind (failsFast_ite (failsFast_removeFile w _) (failsFast_pure w ()))
  intro _
  apply failsFast_bind (failsFast_makedirs w _)
  intro _
  apply failsFast_bind (failsFast_readFile w _)
  intro flags
  apply failsFast_ite (failsFast_throwErr w _)
  apply failsFast_bind
  · apply failsFast_ite (failsFast_checkCall w _ _)
    apply failsFast_bind (failsFast_writeFile w _ _)
    intro _
    exact failsFast_checkCall w _ _
  intro _
  apply failsFast_bind
  · apply failsFast_ite (failsFast_pure w _)
    apply failsFast_ite (failsFast_pure w _)
    exact failsFast_throwErr w _
  intro targets
  exact failsFast_checkCall w _ _

/-- fail-fast discipline for the whole command dispatch. -/
theorem failsFast_runCommand (w : World) (cfg : Config) (command : String) :
    FailsFast w (runCommand w cfg command) := by
  unfold runCommand
  split
  · exact failsFast_init w cfg
  · exact failsFast_sync w cfg
  · exact failsFast_prepare w cfg
  · exact failsFast_build w cfg
  · exact failsFast_clean w cfg
  · exact failsFast_pure w ()

theorem dictGet_dictInsert_self (m : List (String × String)) (k v : String) :
    dictGet (dictInsert m k v) k = some v := by
  induction m with
  | nil => simp [dictInsert, dictGet]
  | cons kv rest ih =>
    by_cases hk : kv.1 = k
    · simp [dictInsert, hk, dictGet]
    · simp [dictInsert, hk, dictGet, ih]

theorem dictGet_dictInsert_ne (m : List (String × String)) (k k' v : String) (h : k' ≠ k) :
    dictGet (dictInsert m k' v) k = dictGet m k := by
  induction m with
  | nil => simp [dictInsert, dictGet, h]
  | cons kv rest ih =>
    by_cases hk : kv.1 = k'
    · simp [dictInsert, hk, dictGet, h]
    · by_cases hkk : kv.1 = k
      · simp only [dictInsert]
        rw [if_neg hk]
        simp [dictGet, hkk]
      · simp only [dictInsert]
        rw [if_neg hk]
        simp [dictGet, hkk, ih]

theorem dictGet_dictUpdate (m xs : List (String × String)) (k : String) :
    dictGet (dictUpdate m xs) k =
      match lookupLast xs k with
      | some v => some v
      | none => dictGet m k := by
  induction xs generalizing m with
  | nil => simp [dictUpdate, lookupLast]
  | cons kv xs ih =>
    show dictGet (dictUpdate (dictInsert m kv.1 kv.2) xs) k = _
    rw [ih]
    cases hl : lookupLast xs k with
    | some v => simp [lookupLast, hl]
    | none =>
      simp only [lookupLast, hl]
      by_cases hk : kv.1 = k
      · subst hk
        simp [dictGet_dictInsert_self]
      · simp [hk, dictGet_dictInsert_ne _ _ _ _ hk]

theorem lookupLast_append (xs ys : List (String × String)) (k : String) :
    lookupLast (xs ++ ys) k =
      match lookupLast ys k with
      | some v => some v
      | none => lookupLast xs k := by
  induction xs with
  | nil =>
    cases h : lookupLast ys k <;> simp [lookupLast, h]
  | cons kv xs ih =>
    rw [List.cons_append]
    show (match lookupLast (xs ++ ys) k with
      | some v => some v
      | none => if kv.1 = k then some kv.2 else none) = _
    rw [ih]
    cases hy : lookupLast ys k <;> cases hx : lookupLast xs k <;> simp [lookupLast, hy, hx]

theorem dictUpdate_append (m xs ys : List (String × String)) :
    dictUpdate m (xs ++ ys) = dictUpdate (dictUpdate m xs) ys :=
  List.foldl_append _ _ _ _

theorem buildGnArgs_eq_update_layers (fileFlags : List (String × String)) (cfg : Config) :
    buildGnArgs fileFlags cfg = dictUpdate fileFlags (overrideLayers cfg) := by
  unfold buildGnArgs overrideLayers
  rw [dictUpdate_append, dictUpdate_append, dictUpdate_append]

/-- C3: the final GN argument map is the layered merge of the file-provided
flags with the common, debug/release, cc_wrapper and user-override layers,
in that order: a key bound in several layers receives the value of the
latest layer binding it (a key bound in no override layer keeps the
file-provided value), and every key of the user's override mapping receives
the user's value. -/
theorem build_gn_args_layered_merge (fileFlags : List (String × String)) (cfg : Config)
    (k v : String) :
    (dictGet (buildGnArgs fileFlags cfg) k =
      match lookupLast (overrideLayers cfg) k with
      | some v' => some v'
      | none => dictGet fileFlags k) ∧
    (lookupLast cfg.gn_args k = some v →
      dictGet (buildGnArgs fileFlags cfg) k = some v) := by
  constructor
  · rw [buildGnArgs_eq_update_layers]
    exact dictGet_dictUpdate fileFlags (overrideLayers cfg) k
  · intro hu
    rw [buildGnArgs_eq_update_layers]
    rw [dictGet_dictUpdate]
    unfold overrideLayers
    rw [lookupLast_append, hu]

/-- C3 witness: the user override layer wins on the concrete base configuration: the
command-line value 1 for the key custom survives into the final map. -/
theorem build_gn_args_layered_merge_witness :
    lookupLast cfgBase.gn_args "custom" = some "1" ∧
    dictGet (buildGnArgs (wBase.parseGnFlags "a=b\n") cfgBase) "custom" = some "1" :=
  ⟨by decide,
    (build_gn_args_layered_merge (wBase.parseGnFlags "a=b\n") cfgBase "custom" "1").2 (by decide)⟩

/-- C8: clean removes a non-default existing output directory only on the exact
reply y: with any other reply it only prompts and leaves the filesystem
untouched, and when the output directory does not exist it performs no
action at all. -/
theorem clean_confirmation_frame (w : World) (cfg : Config) :
    (w.pathExists cfg.output_base_dir = false → clean w cfg = ⟨[], .ok ()⟩) ∧
    (w.pathExists cfg.output_base_dir = true →
      w.expand cfg.output_base_dir ≠ w.expand w.defaultOutputBaseDir →
      (w.reply ≠ "y" → clean w cfg = ⟨[.prompt (cleanPromptMsg w cfg)], .ok ()⟩) ∧
      (w.reply = "y" → (clean w cfg).trace =
        [.prompt (cleanPromptMsg w cfg),
         .checkCall none ["rm", "-rf", cfg.output_base_dir]])) := by
  constructor
  · intro h
    simp [clean, h, Step.pure]
  · intro h hne
    constructor
    · intro hr
      simp [clean, h, hne, promptUser, Step.bind, Step.pure, hr]
    · intro hr
      simp [clean, h, hne, promptUser, Step.bind, Step.pure, hr, checkCall]

/-- C8 witness: on the concrete environment wCleanNo the output directory exists, is
not the default, the reply is not y, and clean only prompts. -/
theorem clean_confirmation_frame_witness :
    clean wCleanNo { cfgBase with output_base_dir := "mydir" } =
      ⟨[.prompt (cleanPromptMsg wCleanNo { cfgBase with output_base_dir := "mydir" })], .ok ()⟩ :=
  ((clean_confirmation_frame wCleanNo { cfgBase with output_base_dir := "mydir" }).2
    (by decide) (by decide)).1 (by decide)

/-- C10: init deletes a pre-existing depot_tools directory and a pre-existing
chromium src directory before the respective fresh clones, and the chromium
clone command carries the depth-1 and no-tags options exactly when the
shallow flag is set. -/
theorem init_fresh_clone_trace (w : World) (cfg : Config) :
    (init w cfg).trace =
      (if w.pathExists "depot_tools" = true then [Eff.rmtree "depot_tools"] else []) ++
      [Eff.gitMaybeCheckout "https://chromium.googlesource.com/chromium/tools/depot_tools.git"
        "depot_tools" none false] ++
      (if w.pathExists SRC_DIR = true then [Eff.rmtree SRC_DIR] else []) ++
      [Eff.checkCall none (["git", "clone"]
        ++ (if cfg.shallow = true then ["--depth", "1", "--no-tags"] else [])
        ++ ["https://chromium.googlesource.com/chromium/src.git", "-b", w.chromiumVersion])] := by
  by_cases h1 : w.pathExists "depot_tools" = true <;>
    by_cases h2 : w.pathExists SRC_DIR = true <;>
      simp [init, h1, h2, Step.bind, Step.pure, rmtree, gitMaybeCheckout, checkCall]

/-- C1 counterexample: the claim that every subprocess invocation propagates
a non-zero exit status is false: under wPruneFails the binary-pruning script invoked by
prepare exits 5, yet prepare succeeds. -/
theorem run_prune_failure_not_propagated :
    ¬ ((prepare wPruneFails cfgBase).ok = true →
        allSubprocOk wPruneFails (prepare wPruneFails cfgBase).trace = true) := by
  decide

/-- C1 (amended): every subprocess invocation made through the checked wrappers in init,
sync, prepare, build and clean propagates a non-zero exit status as an
uncaught exception with no retry or compensating action: a failing checked
call is the last effect of its trace, and a successful run contains no
failing checked call.  The only invocations exempt are those the code runs
without exit-status checking: the binary-pruning scripts and the
tag-describe query of set_revision. -/
theorem checked_calls_fail_fast (w : World) (cfg : Config) :
    FailsFast w (init w cfg) ∧ FailsFast w (sync w cfg) ∧ FailsFast w (prepare w cfg) ∧
    FailsFast w (build w cfg) ∧ FailsFast w (clean w cfg) :=
  ⟨failsFast_init w cfg, failsFast_sync w cfg, failsFast_prepare w cfg,
    failsFast_build w cfg, failsFast_clean w cfg⟩

/-- C1 witness: instantiation of the fail-fast theorem: the successful prepare run under
wPruneFails has its patch-application call checked-ok. -/
theorem checked_calls_fail_fast_witness :
    checkedOk wPruneFails (Eff.checkCall none patchesCmd) = true :=
  (checked_calls_fail_fast wPruneFails cfgBase).2.2.1.2 (by decide)
    (Eff.checkCall none patchesCmd) (by decide)

/-- C2 counterexample: the claim that the script exit code mirrors the exit
code of the failing process is false: under wGitFails the chromium clone fails with status 7, and
the script exits with status 1, not 7. -/
theorem exit_code_not_mirrored :
    (runCommand wGitFails cfgBase "init").result =
      .error (.calledProcess ["git", "clone",
        "https://chromium.googlesource.com/chromium/src.git", "-b", "100.0.4896.60"] 7) ∧
    scriptExitCode wGitFails cfgBase "init" = 1 ∧
    scriptExitCode wGitFails cfgBase "init" ≠ 7 := by
  decide

/-- C2 (amended): whenever the script terminates because an external process returned a
non-zero exit status, the script's own exit status is 1, the interpreter's
uncaught-exception status, whatever the child's status was. -/
theorem script_exit_code_one_on_failure (w : World) (cfg : Config) (command : String)
    (cmd : List String) (code : Nat)
    (h : (runCommand w cfg command).result = .error (.calledProcess cmd code)) :
    scriptExitCode w cfg command = 1 := by
  unfold scriptExitCode
  rw [h]

/-- C2 witness: instantiation of the exit-status theorem at the failing clone. -/
theorem script_exit_code_one_on_failure_witness :
    scriptExitCode wGitFails cfgBase "init" = 1 :=
  script_exit_code_one_on_failure wGitFails cfgBase "init"
    ["git", "clone", "https://chromium.googlesource.com/chromium/src.git",
      "-b", "100.0.4896.60"] 7 (by decide)

/-- C4: with the shallow flag disabled, set_revision queries whether the
chromium repository is shallow as its second effect, directly after reading
HEAD and before anything else; and when the repository reports being
shallow it stops with a descriptive error after exactly those two read-only
queries, so no git clean, reset, pull or checkout is performed. -/
theorem set_revision_shallow_guard (w : World) (cfg : Config)
    (hsh : cfg.shallow = false)
    (hrev : w.exitCode ["git", "rev-parse", "HEAD"] = 0) :
    ((set_revision w cfg).trace.take 2 =
      [Eff.checkOutput (some SRC_DIR) ["git", "rev-parse", "HEAD"],
       Eff.checkOutput (some SRC_DIR) ["git", "rev-parse", "--is-shallow-repository"]]) ∧
    (w.exitCode ["git", "rev-parse", "--is-shallow-repository"] = 0 →
      pyStrip (w.output ["git", "rev-parse", "--is-shallow-repository"]) = "true" →
      set_revision w cfg =
        ⟨[Eff.checkOutput (some SRC_DIR) ["git", "rev-parse", "HEAD"],
          Eff.checkOutput (some SRC_DIR) ["git", "rev-parse", "--is-shallow-repository"]],
         .error (.runtime "Cannot set revision on a shallow repository!")⟩) := by
  unfold set_revision
  by_cases hq : w.exitCode ["git", "rev-parse", "--is-shallow-repository"] = 0
  · by_cases ht : pyStrip (w.output ["git", "rev-parse", "--is-shallow-repository"]) = "true"
    · constructor
      · simp [hsh, hrev, hq, ht, checkOutput, throwErr, Step.bind, List.take]
      · intro _ _
        simp [hsh, hrev, hq, ht, checkOutput, throwErr, Step.bind]
    · constructor
      · simp [hsh, hrev, hq, ht, checkOutput, runCmd, throwErr, Step.bind, List.take]
      · intro _ hc
        exact absurd hc ht
  · constructor
    · simp [hsh, hrev, hq, checkOutput, throwErr, Step.bind, List.take]
    · intro hc
      exact absurd hc hq

/-- C4 witness: instantiation of the shallow guard on the concrete environment in which
the repository reports being shallow. -/
theorem set_revision_shallow_guard_witness :
    set_revision wShallowRepo cfgBase =
      ⟨[Eff.checkOutput (some SRC_DIR) ["git", "rev-parse", "HEAD"],
        Eff.checkOutput (some SRC_DIR) ["git", "rev-parse", "--is-shallow-repository"]],
       .error (.runtime "Cannot set revision on a shallow repository!")⟩ :=
  (set_revision_shallow_guard wShallowRepo cfgBase (by decide) (by decide)).2
    (by decide) (by decide)

/-- C5: when the depot_tools directory is missing or not a directory, sync
stops with the descriptive error before performing any effect at all, and
build stops with the same error after only local filesystem effects: its
trace contains no external command, in particular neither the project
generator nor the build driver. -/
theorem missing_depot_tools_guard (w : World) (cfg : Config)
    (h : w.pathExists (w.cwd ++ "/depot_tools") = false ∨
         w.isDir (w.cwd ++ "/depot_tools") = false) :
    sync w cfg = ⟨[], .error (.fileNotFound "Cannot find depot_tools!")⟩ ∧
    (build w cfg).result = .error (.fileNotFound "Cannot find depot_tools!") ∧
    noExternal (build w cfg).trace = true := by
  refine ⟨?_, ?_, ?_⟩
  · unfold sync
    rw [if_pos h]
    rfl
  · by_cases hb : w.pathExists (outputSrcPath cfg) = true ∧ w.isDir (outputSrcPath cfg) = false <;>
      rcases h with h | h <;>
        simp [build, hb, h, removeFile, makedirs, readFile, throwErr, Step.bind, Step.pure]
  · by_cases hb : w.pathExists (outputSrcPath cfg) = true ∧ w.isDir (outputSrcPath cfg) = false <;>
      rcases h with h | h <;>
        simp [build, hb, h, removeFile, makedirs, readFile, throwErr, Step.bind, Step.pure,
          noExternal, isExternal]

/-- C5 witness: instantiation of the depot_tools guard on the base environment, where no
path exists. -/
theorem missing_depot_tools_guard_witness :
    sync wBase cfgBase = ⟨[], .error (.fileNotFound "Cannot find depot_tools!")⟩ :=
  (missing_depot_tools_guard wBase cfgBase (Or.inl (by decide))).1

/-- C6: when set_revision succeeds, the next two effects of sync are exactly the
write of the .gclient file, whose content is the manifest template with the
@@TARGET_OS@@ placeholder replaced by the configured target OS in single
quotes, followed by the gclient sync invocation: the manifest is on disk
before the dependency-sync tool runs. -/
theorem sync_writes_gclient_before_gclient_sync (w : World) (cfg : Config)
    (t0 : List Eff) (r : String)
    (hdep1 : w.pathExists (w.cwd ++ "/depot_tools") = true)
    (hdep2 : w.isDir (w.cwd ++ "/depot_tools") = true)
    (hset : set_revision w cfg = ⟨t0, .ok r⟩) :
    (sync w cfg).trace.take (t0.length + 2) =
      t0 ++ [Eff.writeFile ".gclient"
          (w.gclientTemplate.replace "@@TARGET_OS@@" ("'" ++ cfg.target_os ++ "'")),
        Eff.checkCall none (["gclient", "sync", "--nohooks"] ++ syncExtraArgs cfg r)] := by
  unfold sync
  rw [if_neg (by simp [hdep1, hdep2])]
  rw [hset]
  simp [trace_bind, writeFile, checkCall, take_append_len, List.take]

/-- C6 witness: instantiation of the manifest theorem on the concrete environment with
depot_tools present and a shallow configuration. -/
theorem sync_writes_gclient_before_gclient_sync_witness :
    (sync wDepot cfgShallow).trace.take
        (([Eff.checkOutput (some SRC_DIR) ["git", "rev-parse", "HEAD"]] : List Eff).length + 2) =
      [Eff.checkOutput (some SRC_DIR) ["git", "rev-parse", "HEAD"]] ++
      [Eff.writeFile ".gclient"
          (wDepot.gclientTemplate.replace "@@TARGET_OS@@" ("'" ++ cfgShallow.target_os ++ "'")),
        Eff.checkCall none (["gclient", "sync", "--nohooks"] ++ syncExtraArgs cfgShallow "deadbeef")] :=
  sync_writes_gclient_before_gclient_sync wDepot cfgShallow
    [Eff.checkOutput (some SRC_DIR) ["git", "rev-parse", "HEAD"]] "deadbeef"
    (by decide) (by decide) (by decide)

/-- C7: when the domain-substitution cache file exists, prepare removes it
before running any of the three ungoogled-chromium scripts, and runs them
in the order binary pruning, patch application, domain substitution, with
the filtered list files passed to the pruning and domain-substitution
steps; on android the same sequence runs with the android additions. -/
theorem prepare_cache_removal_and_script_order (w : World) (cfg : Config)
    (hcache : w.pathExists "domsubcache.tar.gz" = true)
    (hapatch : w.exitCode androidPatchCmd = 0)
    (hpatches : w.exitCode patchesCmd = 0)
    (hdomsub : w.exitCode (domsubCmd w) = 0)
    (hpatches2 : w.exitCode patchesCmd2 = 0)
    (hdomsub2 : w.exitCode (domsubCmd2 w) = 0) :
    (cfg.target_os ≠ "android" →
      prepare w cfg =
        ⟨[Eff.gitMaybeCheckout "https://github.com/Eloston/ungoogled-chromium.git"
            "ungoogled-chromium" (some w.ucVersion) true,
          Eff.removeFile "domsubcache.tar.gz",
          Eff.runCmd none (pruneCmd w),
          Eff.checkCall none patchesCmd,
          Eff.checkCall none (domsubCmd w)], .ok ()⟩) ∧
    (cfg.target_os = "android" →
      prepare w cfg =
        ⟨[Eff.gitMaybeCheckout "https://github.com/Eloston/ungoogled-chromium.git"
            "ungoogled-chromium" (some w.ucVersion) true,
          Eff.gitMaybeCheckout
            "https://github.com/ungoogled-software/ungoogled-chromium-android.git"
            "ungoogled-chromium-android" (some w.ucaVersion) true,
          Eff.checkCall none androidPatchCmd,
          Eff.removeFile "domsubcache.tar.gz",
          Eff.runCmd none (pruneCmd w),
          Eff.checkCall none patchesCmd,
          Eff.checkCall none (domsubCmd w),
          Eff.removeFile "domsubcache.tar.gz",
          Eff.runCmd none (pruneCmd2 w),
          Eff.checkCall none patchesCmd2,
          Eff.checkCall none (domsubCmd2 w)], .ok ()⟩) := by
  constructor
  · intro hos
    simp [prepare, hos, hcache, hpatches, hdomsub, gitMaybeCheckout, removeFile, runCmd,
      checkCall, Step.bind, Step.pure]
  · intro hos
    simp [prepare, hos, hcache, hapatch, hpatches, hdomsub, hpatches2, hdomsub2,
      gitMaybeCheckout, removeFile, runCmd, checkCall, Step.bind, Step.pure]

/-- C7 witness: instantiation of the prepare theorem on the concrete environment with
the cache file present and all commands succeeding. -/
theorem prepare_cache_removal_and_script_order_witness :
    prepare wDepotCache cfgBase =
      ⟨[Eff.gitMaybeCheckout "https://github.com/Eloston/ungoogled-chromium.git"
          "ungoogled-chromium" (some wDepotCache.ucVersion) true,
        Eff.removeFile "domsubcache.tar.gz",
        Eff.runCmd none (pruneCmd wDepotCache),
        Eff.checkCall none patchesCmd,
        Eff.checkCall none (domsubCmd wDepotCache)], .ok ()⟩ :=
  (prepare_cache_removal_and_script_order wDepotCache cfgBase (by decide) (by decide)
    (by decide) (by decide) (by decide) (by decide)).1 (by decide)

/-- C9: for a target OS that is neither linux nor android, build fails with the
unsupported-OS error, but only after the output directory has been created
and the project generator has been invoked: both effects are in the trace,
while no build-driver invocation is. -/
theorem build_unsupported_os_late_error (w : World) (cfg : Config)
    (hos1 : cfg.target_os ≠ "linux") (hos2 : cfg.target_os ≠ "android")
    (hdep1 : w.pathExists (w.cwd ++ "/depot_tools") = true)
    (hdep2 : w.isDir (w.cwd ++ "/depot_tools") = true)
    (hok : ∀ c, w.exitCode c = 0) :
    (build w cfg).result = .error (.attributeError "Target OS not supported") ∧
    Eff.makedirs (outputSrcPath cfg) ∈ (build w cfg).trace ∧
    (cfg.direct_download = false →
      Eff.checkCall (some SRC_DIR) ["gn", "gen", outputPath cfg, "--fail-on-unused-args"]
        ∈ (build w cfg).trace) ∧
    (cfg.direct_download = true →
      Eff.checkCall none [SRC_DIR ++ "/tools/gn/bootstrap/bootstrap.py",
        "--gn-gen-args='" ++ buildGnArgsStr w cfg ++ "'"] ∈ (build w cfg).trace) ∧
    hasAutoninja (build w cfg).trace = false := by
  by_cases hb : w.pathExists (outputSrcPath cfg) = true ∧ w.isDir (outputSrcPath cfg) = false <;>
    by_cases hd : cfg.direct_download = true <;>
      refine ⟨?_, ?_, ?_, ?_, ?_⟩ <;>
        simp [build, hb, hd, hdep1, hdep2, hos1, hos2, hok, buildGnArgsStr,
          removeFile, makedirs, readFile, writeFile, checkCall, throwErr,
          Step.bind, Step.pure, hasAutoninja, isAutoninjaCall] <;> decide

/-- C9 witness: instantiation of the unsupported-OS theorem at target OS mac. -/
theorem build_unsupported_os_late_error_witness :
    (build wDepot { cfgBase with target_os := "mac" }).result =
      .error (.attributeError "Target OS not supported") :=
  (build_unsupported_os_late_error wDepot { cfgBase with target_os := "mac" }
    (by decide) (by decide) (by decide) (by decide) (fun _ => rfl)).1

end UCBuild
